import Mathlib

/-!
Verification of the backup/restore CLI (`src/main.js`).

The program is a procedural pipeline tying together an external database
dump/import tool, a zip library, a cloud storage client and an interactive
prompt.  We embed it shallowly: every external collaborator is an oracle
value describing the outcome of the corresponding call, and the program is
an executable interpreter over an explicit effect trace (log lines, files
on disk, files ever created, unlink attempts, cleanup invocations, prompt
and stage counters, process exit code).  Pure string manipulations
(`String.replace`, command assembly, truthiness) are translated verbatim.
-/

namespace BackupTool

abbrev Path := String

/-- JavaScript `String.prototype.replace` with a string pattern removes only
the FIRST occurrence of the pattern.  `stripFirst pat l` removes the first
occurrence of `pat` from `l`, or returns `none` when `pat` does not occur
(in JS the original string is then returned unchanged). -/
def stripFirst (pat : List Char) : List Char → Option (List Char)
  | [] => none
  | c :: rest =>
    if pat.isPrefixOf (c :: rest) then some ((c :: rest).drop pat.length)
    else (stripFirst pat rest).map (c :: ·)

/-- `s.replace(pat, '')` in JavaScript: remove the first occurrence of `pat`. -/
def jsReplace (s pat : String) : String :=
  match stripFirst pat.data s.data with
  | some r => ⟨r⟩
  | none => s

/-- Whether `pat` occurs as a contiguous substring of the list. -/
def occursIn (pat : List Char) : List Char → Bool
  | [] => false
  | c :: rest => pat.isPrefixOf (c :: rest) || occursIn pat rest

/-- Whether `pat` occurs as a substring of `s`. -/
def strContains (s pat : String) : Bool := occursIn pat.data s.data

/-- `Array.prototype.filter(Boolean)` on strings: keep the truthy (non-empty)
ones (src/main.js line 259). -/
def jsFilter (l : List String) : List String := l.filter (fun s => !s.isEmpty)

/-- Shell word splitting: maximal runs of non-space characters. -/
def words : List Char → List (List Char)
  | [] => []
  | c :: rest =>
    if c = ' ' then words rest
    else (c :: rest.takeWhile (fun x => x ≠ ' ')) :: words (rest.dropWhile (fun x => x ≠ ' '))
termination_by l => l.length
decreasing_by
  · simp [Nat.lt_succ_iff]
  · simp only [List.length_cons, Nat.lt_succ_iff]
    exact ((List.dropWhile_sublist _).length_le)

/-- The argument words of a command string, as the shell sees them. -/
def shellWords (s : String) : List String := (words s.data).map (fun l => ⟨l⟩)

/-- A string with no space character (a single shell word when non-empty). -/
def spaceFree (s : String) : Bool := s.data.all (fun c => c ≠ ' ')

/-! ## Configuration (src/main.js lines 14-42) -/

/-- The process environment as far as the program reads it; `none` is an
unset variable (src/main.js lines 15-27). -/
structure Env where
  DB_HOST : Option String
  DB_USER : Option String
  DB_NAME : Option String
  GDRIVE_CLIENT_EMAIL : Option String
  GDRIVE_PRIVATE_KEY : Option String
  GDRIVE_FOLDER_ID : Option String
  DB_PASSWORD : Option String
  deriving Repr, DecidableEq

/-- JavaScript truthiness of an optional string: `undefined` and `''` are
falsy, every other string is truthy. -/
def truthy : Option String → Bool
  | none => false
  | some s => !s.isEmpty

/-- Startup validation (src/main.js lines 20-27): each of the six required
variables must be truthy (`!process.env[v]` throws on unset AND on empty),
and `DB_PASSWORD` must merely be present (`=== undefined` check), so the
empty string is accepted for it. -/
def validateEnv (e : Env) : Except String Unit :=
  if !truthy e.DB_HOST then .error "Missing required environment variable: DB_HOST"
  else if !truthy e.DB_USER then .error "Missing required environment variable: DB_USER"
  else if !truthy e.DB_NAME then .error "Missing required environment variable: DB_NAME"
  else if !truthy e.GDRIVE_CLIENT_EMAIL then .error "Missing required environment variable: GDRIVE_CLIENT_EMAIL"
  else if !truthy e.GDRIVE_PRIVATE_KEY then .error "Missing required environment variable: GDRIVE_PRIVATE_KEY"
  else if !truthy e.GDRIVE_FOLDER_ID then .error "Missing required environment variable: GDRIVE_FOLDER_ID"
  else if e.DB_PASSWORD = none then .error "Missing required environment variable: DB_PASSWORD. If you have no password, set it to DB_PASSWORD= in your .env file."
  else .ok ()

/-- `const passwordArg = DB_PASSWORD ? \x7b-p$\x7bDB_PASSWORD\x7d\x7d : ''`
(src/main.js line 42): the empty string is falsy, so an empty password
yields no flag at all. -/
def passwordArg (pw : String) : String := if !pw.isEmpty then "-p" ++ pw else ""

/-- The dump command string (src/main.js line 51). -/
def dumpCmd (host user pw db dumpFile : String) : String :=
  "mysqldump -h " ++ host ++ " -u " ++ user ++ " " ++ passwordArg pw ++ " " ++ db ++ " > " ++ dumpFile

/-- The import command string (src/main.js line 162). -/
def importCmd (host user pw db sqlFile : String) : String :=
  "mysql -h " ++ host ++ " -u " ++ user ++ " " ++ passwordArg pw ++ " " ++ db ++ " < " ++ sqlFile

/-! ## The effect trace -/

/-- The observable effects of a run: console log lines, the set of local
files currently on disk, every path ever created, every unlink actually
attempted, each invocation of `cleanup` with its argument list, prompt and
stage counters, `process.exitCode`, and an explicit `process.exit` call. -/
structure Trace where
  log : List String
  fs : List Path
  created : List Path
  deleted : List Path
  cleanupCalls : List (List Path)
  selectPrompts : Nat
  confirmPrompts : Nat
  menuPrompts : Nat
  downloadAttempts : Nat
  unzipAttempts : Nat
  importAttempts : Nat
  uploadAttempts : Nat
  exitCode : Nat
  exited : Option Nat
  deriving Repr, DecidableEq

def Trace.init : Trace :=
  { log := [], fs := [], created := [], deleted := [], cleanupCalls := []
    selectPrompts := 0, confirmPrompts := 0, menuPrompts := 0
    downloadAttempts := 0, unzipAttempts := 0, importAttempts := 0, uploadAttempts := 0
    exitCode := 0, exited := none }

def Trace.logMsg (m : String) (st : Trace) : Trace := { st with log := st.log ++ [m] }

/-- Whether a file currently exists at `p`. -/
def Trace.hasFile (st : Trace) (p : Path) : Bool := st.fs.any (fun q => q = p)

/-- Creating (or truncating) a file at `p`: the path is recorded in
`created`, and appears in `fs` (a set: no duplicate entries). -/
def Trace.createFile (p : Path) (st : Trace) : Trace :=
  { st with created := st.created ++ [p]
            fs := if st.hasFile p then st.fs else st.fs ++ [p] }

/-- `fs.unlinkSync p`: the file disappears; the attempt is recorded. -/
def Trace.unlink (p : Path) (st : Trace) : Trace :=
  { st with fs := st.fs.filter (fun q => !(q = p)), deleted := st.deleted ++ [p] }

/-! ## Cleanup (src/main.js lines 179-191) -/

/-- One iteration of the `files.forEach` body: delete the path only when a
file exists there (`fs.existsSync` guard); failures would be logged and
swallowed. -/
def cleanupStep (st : Trace) (file : Path) : Trace :=
  if st.hasFile file then (st.unlink file).logMsg ("   - Deleted: " ++ file)
  else st

/-- `cleanup(files)` (src/main.js lines 179-191): log the banner, then for
each path delete it if it exists.  Each invocation is recorded with its
argument list. -/
def cleanup (files : List Path) (st : Trace) : Trace :=
  let st := st.logMsg "🧹 Cleaning up temporary files..."
  let st := { st with cleanupCalls := st.cleanupCalls ++ [files] }
  files.foldl cleanupStep st

/-! ## Backup stages (src/main.js lines 48-100) -/

/-- Outcome of a `child_process.exec` call: success, or failure carrying the
error's `message` and the captured `stderr`. -/
inductive ExecOutcome where
  | ok
  | fail (errMsg : String) (stderrText : String)
  deriving Repr, DecidableEq

/-- Oracle describing the behaviour of the external collaborators during one
backup run. `dumpPartial` says whether a failed dump still left a (possibly
partial) file behind — the shell redirection `> dumpFile` may create the
file before `mysqldump` fails.  `packBytes` is `archive.pointer()` at the
time the output stream closes. -/
structure BackupOracle where
  dumpExec : ExecOutcome
  dumpPartial : Bool
  packOk : Bool
  packBytes : Nat
  packErrMsg : String
  uploadOk : Bool
  uploadErrMsg : String
  uploadFileId : String
  deriving Repr, DecidableEq

/-- `dumpDatabase(dumpFile)` (src/main.js lines 48-61): run `mysqldump`
redirected into `dumpFile`; on success the dump file exists and the promise
resolves; on failure the callback logs stderr and rejects with
`Database dump failed: <error.message>`. -/
def dumpDatabase (o : BackupOracle) (dbName : String) (dumpFile : Path) (st : Trace) :
    Trace × Except String Unit :=
  let st := st.logMsg ("📦 Creating database dump for " ++ dbName ++ "...")
  match o.dumpExec with
  | .ok =>
      ((st.createFile dumpFile).logMsg "✅ Database dump created successfully.", .ok ())
  | .fail em se =>
      let st := if o.dumpPartial then st.createFile dumpFile else st
      (st.logMsg ("❌ Database dump failed: " ++ se),
       .error ("Database dump failed: " ++ em))

/-- `zipFileFunc(dumpFile, zipFile)` (src/main.js lines 63-82):
`fs.createWriteStream(zipFile)` creates the archive file up front; on the
output stream's `close` event the byte count is logged and the promise
resolves WITH NO VALUE (`resolve()`), modelled as `.ok none`; an archiver
error rejects. -/
def zipFileFunc (o : BackupOracle) (dumpFile zipFile : Path) (st : Trace) :
    Trace × Except String (Option Nat) :=
  let st := st.logMsg ("🗜 Compressing " ++ dumpFile ++ "...")
  let st := st.createFile zipFile
  if o.packOk then
    (st.logMsg ("✅ File compressed: " ++ zipFile ++ " (" ++ toString o.packBytes ++ " bytes)"),
     .ok none)
  else
    (st.logMsg ("❌ Compression failed: " ++ o.packErrMsg),
     .error ("Compression failed: " ++ o.packErrMsg))

/-- `uploadToGoogleDrive(zipFile)` (src/main.js lines 84-100): reads the
archive and issues `drive.files.create`; creates no local file. -/
def uploadToGoogleDrive (o : BackupOracle) (zipFile : Path) (st : Trace) :
    Trace × Except String Unit :=
  let st := st.logMsg ("☁️ Uploading " ++ zipFile ++ " to Google Drive...")
  let st := { st with uploadAttempts := st.uploadAttempts + 1 }
  if o.uploadOk then
    (st.logMsg ("✅ Upload successful: " ++ o.uploadFileId), .ok ())
  else
    (st, .error o.uploadErrMsg)

/-- Dump file name derivation (src/main.js line 195); `ts` is the already
sanitised timestamp string. -/
def dumpFileName (db ts : String) : Path := "backup-" ++ db ++ "-" ++ ts ++ ".sql"

/-- `runBackupProcess` (src/main.js lines 193-209): dump, pack, upload in
sequence; any rejection is caught (logged, `process.exitCode = 1`); the
`finally` block always runs `cleanup([dumpFile, zipFile])` exactly once. -/
def runBackupProcess (o : BackupOracle) (db ts : String) (st : Trace) : Trace :=
  let dumpFile := dumpFileName db ts
  let zipFile := dumpFile ++ ".zip"
  let (st, r) := dumpDatabase o db dumpFile st
  let st :=
    match r with
    | .error msg => ({ st with exitCode := 1 }).logMsg ("\n🔥 Backup failed: " ++ msg)
    | .ok _ =>
      let (st, r) := zipFileFunc o dumpFile zipFile st
      match r with
      | .error msg => ({ st with exitCode := 1 }).logMsg ("\n🔥 Backup failed: " ++ msg)
      | .ok _ =>
        let (st, r) := uploadToGoogleDrive o zipFile st
        match r with
        | .error msg => ({ st with exitCode := 1 }).logMsg ("\n🔥 Backup failed: " ++ msg)
        | .ok _ => st.logMsg "\n🎉 Backup completed successfully!"
  cleanup [dumpFile, zipFile] st

/-! ## Restore stages (src/main.js lines 106-172) -/

/-- A record returned by the Drive listing (src/main.js lines 106-115). -/
structure RemoteFile where
  id : String
  name : String
  createdTime : String
  deriving Repr, DecidableEq, Inhabited

instance : DecidableEq (Except String (List RemoteFile)) := fun a b =>
  match a, b with
  | .ok x, .ok y => if h : x = y then .isTrue (by rw [h]) else .isFalse (by simp [h])
  | .error x, .error y => if h : x = y then .isTrue (by rw [h]) else .isFalse (by simp [h])
  | .ok _, .error _ => .isFalse (by simp)
  | .error _, .ok _ => .isFalse (by simp)

/-- Oracle for one restore run: the listing result, the index the user picks
in the selection prompt, the confirmation answer, and the outcomes of the
download / unzip / import stages. -/
structure RestoreOracle where
  listResult : Except String (List RemoteFile)
  selectIndex : Nat
  confirm : Bool
  downloadOk : Bool
  downloadErr : String
  unzipOk : Bool
  unzipErr : String
  importExec : ExecOutcome
  deriving Repr, DecidableEq

/-- `listBackupsFromDrive` (src/main.js lines 106-115). -/
def listBackupsFromDrive (o : RestoreOracle) (st : Trace) :
    Trace × Except String (List RemoteFile) :=
  (st.logMsg "🔍 Listing backups from Google Drive...", o.listResult)

/-- `downloadFileFromDrive(fileId, fileName)` (src/main.js lines 117-140):
`fs.createWriteStream(fileName)` runs BEFORE the `drive.files.get` request,
so the destination file exists even when the request fails immediately. -/
def downloadFileFromDrive (o : RestoreOracle) (fileId : String) (fileName : Path) (st : Trace) :
    Trace × Except String Unit :=
  let st := st.logMsg ("🔽 Downloading " ++ fileName ++ "...")
  let st := st.createFile fileName
  let st := { st with downloadAttempts := st.downloadAttempts + 1 }
  if o.downloadOk then
    (st.logMsg "✅ Download complete.", .ok ())
  else
    (st.logMsg "❌ Error during download.", .error o.downloadErr)

/-- The extracted file name derivation (src/main.js line 144):
`zipFile.replace('.zip', '')` — first occurrence, not suffix. -/
def unzipName (zipFile : String) : String := jsReplace zipFile ".zip"

/-- `unzipRestoreFile(zipFile)` (src/main.js lines 142-157): computes the
target name by `replace('.zip','')`, pipes the archive through the
extractor, and resolves with that name on `close`.  Extraction is modelled
atomically: the extracted file appears exactly when the stream closes
successfully. -/
def unzipRestoreFile (o : RestoreOracle) (zipFile : Path) (st : Trace) :
    Trace × Except String Path :=
  let sqlFile := unzipName zipFile
  let st := st.logMsg ("🗜 Unzipping " ++ zipFile ++ "...")
  let st := { st with unzipAttempts := st.unzipAttempts + 1 }
  if o.unzipOk then
    ((st.createFile sqlFile).logMsg ("✅ Unzipped to " ++ sqlFile ++ "."), .ok sqlFile)
  else
    (st.logMsg "❌ Unzip failed.", .error o.unzipErr)

/-- `importDatabase(sqlFile)` (src/main.js lines 159-172). -/
def importDatabase (o : RestoreOracle) (sqlFile : Path) (st : Trace) :
    Trace × Except String Unit :=
  let st := st.logMsg ("🔧 Restoring database from " ++ sqlFile ++ "...")
  let st := { st with importAttempts := st.importAttempts + 1 }
  match o.importExec with
  | .ok => (st.logMsg "✅ Database restored successfully.", .ok ())
  | .fail em se =>
      (st.logMsg ("❌ Database restore failed: " ++ se),
       .error ("Database restore failed: " ++ em))

/-- `runRestoreProcess` (src/main.js lines 211-261).  The two tracking
variables start as `''`; `downloadedZipFile` is assigned before the
download, `extractedSqlFile` only after a successful unzip; the `finally`
block runs `cleanup([downloadedZipFile, extractedSqlFile].filter(Boolean))`
with the values the variables have at that point. -/
def runRestoreProcess (o : RestoreOracle) (st : Trace) : Trace :=
  let (st, files?) := listBackupsFromDrive o st
  match files? with
  | .error msg =>
      cleanup (jsFilter ["", ""])
        (({ st with exitCode := 1 }).logMsg ("\n🔥 Restore failed: " ++ msg))
  | .ok files =>
    if files.length = 0 then
      cleanup (jsFilter ["", ""])
        (st.logMsg "🤷 No backup files found in the specified Google Drive folder.")
    else
      let st := { st with selectPrompts := st.selectPrompts + 1 }
      let fileToRestore := files.getD (o.selectIndex % files.length) default
      let st := { st with confirmPrompts := st.confirmPrompts + 1 }
      if !o.confirm then
        cleanup (jsFilter ["", ""]) (st.logMsg "🛑 Restore cancelled.")
      else
        let downloadedZipFile := fileToRestore.name
        let (st, r) := downloadFileFromDrive o fileToRestore.id downloadedZipFile st
        match r with
        | .error msg =>
            cleanup (jsFilter [downloadedZipFile, ""])
              (({ st with exitCode := 1 }).logMsg ("\n🔥 Restore failed: " ++ msg))
        | .ok _ =>
          let (st, r) := unzipRestoreFile o downloadedZipFile st
          match r with
          | .error msg =>
              cleanup (jsFilter [downloadedZipFile, ""])
                (({ st with exitCode := 1 }).logMsg ("\n🔥 Restore failed: " ++ msg))
          | .ok extractedSqlFile =>
            let (st, r) := importDatabase o extractedSqlFile st
            match r with
            | .error msg =>
                cleanup (jsFilter [downloadedZipFile, extractedSqlFile])
                  (({ st with exitCode := 1 }).logMsg ("\n🔥 Restore failed: " ++ msg))
            | .ok _ =>
                cleanup (jsFilter [downloadedZipFile, extractedSqlFile])
                  (st.logMsg "\n🎉 Restore completed successfully!")

/-! ## Main menu (src/main.js lines 268-305) -/

inductive MenuAction where
  | backup
  | restore
  | exitApp
  deriving Repr, DecidableEq

/-- Oracle for one invocation: the configured database name, the timestamp
the backup run would derive, the chosen menu action and the pipeline
oracles. -/
structure MenuOracle where
  db : String
  ts : String
  action : MenuAction
  backupO : BackupOracle
  restoreO : RestoreOracle
  deriving Repr, DecidableEq

/-- `showMainMenu` (src/main.js lines 268-299): print the banner, prompt
once, dispatch.  The `switch` has no loop around it: after a pipeline
completes the function simply returns. -/
def showMainMenu (o : MenuOracle) (st : Trace) : Trace :=
  let st := st.logMsg "===================================="
  let st := st.logMsg "   Database Backup & Restore Tool   "
  let st := st.logMsg "===================================="
  let st := { st with menuPrompts := st.menuPrompts + 1 }
  match o.action with
  | .backup => runBackupProcess o.backupO o.db o.ts st
  | .restore => runRestoreProcess o.restoreO st
  | .exitApp => { st.logMsg "👋 Goodbye!" with exited := some 0 }

/-- The whole invocation (src/main.js line 302): `showMainMenu()` is called
exactly once, from an empty trace. -/
def mainRun (o : MenuOracle) : Trace := showMainMenu o Trace.init

/-! ## Lemmas about substring occurrence and first-occurrence removal -/

theorem isPrefixOf_length {p l : List Char} (h : p.isPrefixOf l = true) :
    p.length ≤ l.length := by
  induction p generalizing l with
  | nil => simp
  | cons c p ih =>
    cases l with
    | nil => simp [List.isPrefixOf] at h
    | cons d l =>
      simp only [List.isPrefixOf, Bool.and_eq_true] at h
      simpa using ih h.2

theorem isPrefixOf_self (l : List Char) : l.isPrefixOf l = true := by
  induction l with
  | nil => rfl
  | cons c l ih => simp [List.isPrefixOf, ih]

theorem occursIn_length {pat l : List Char} (h : occursIn pat l = true) :
    pat.length ≤ l.length := by
  induction l with
  | nil => simp [occursIn] at h
  | cons c l ih =>
    rw [occursIn, Bool.or_eq_true] at h
    rcases h with h | h
    · exact isPrefixOf_length h
    · simpa using Nat.le_succ_of_le (ih h)

theorem occursIn_self {pat : List Char} (h : pat ≠ []) : occursIn pat pat = true := by
  cases pat with
  | nil => simp at h
  | cons c p =>
    rw [occursIn, Bool.or_eq_true]
    exact Or.inl (isPrefixOf_self _)

theorem occursIn_append_self {xs : List Char} (pat : List Char) (h : xs ≠ []) :
    occursIn pat (xs ++ pat) = true := by
  induction xs with
  | nil => simp at h
  | cons c xs ih =>
    rw [List.cons_append, occursIn, Bool.or_eq_true]
    cases xs with
    | nil =>
      cases pat with
      | nil => exact Or.inl rfl
      | cons p ps =>
        refine Or.inr ?_
        simpa using occursIn_self (show p :: ps ≠ [] by simp)
    | cons d xs' => exact Or.inr (ih (by simp))

theorem stripFirst_length {pat l r : List Char} (h : stripFirst pat l = some r) :
    r.length + pat.length = l.length := by
  induction l generalizing r with
  | nil => simp [stripFirst] at h
  | cons c l ih =>
    rw [stripFirst] at h
    by_cases hp : pat.isPrefixOf (c :: l) = true
    · rw [if_pos hp] at h
      have hle := isPrefixOf_length hp
      obtain rfl : (c :: l).drop pat.length = r := by injection h
      simp only [List.length_drop, List.length_cons] at *
      omega
    · rw [if_neg hp] at h
      cases hs : stripFirst pat l with
      | none => rw [hs] at h; simp at h
      | some r' =>
        rw [hs] at h
        simp only [Option.map_some', Option.some.injEq] at h
        subst h
        have := ih hs
        simp only [List.length_cons]
        omega

theorem stripFirst_of_occursIn {pat l : List Char} (h : occursIn pat l = true) :
    ∃ r, stripFirst pat l = some r := by
  induction l with
  | nil => simp [occursIn] at h
  | cons c l ih =>
    rw [occursIn, Bool.or_eq_true] at h
    rw [stripFirst]
    by_cases hp : pat.isPrefixOf (c :: l) = true
    · exact ⟨_, by rw [if_pos hp]⟩
    · rcases h with h | h
      · exact absurd h hp
      · obtain ⟨r, hr⟩ := ih h
        exact ⟨c :: r, by rw [if_neg hp, hr]; rfl⟩

/-- `.isPrefixOf` of the four-character pattern only looks at the first four
characters of the input. -/
theorem zipPfx4 (a b c d : Char) (l l' : List Char) :
    (['.', 'z', 'i', 'p'] : List Char).isPrefixOf (a :: b :: c :: d :: l)
      = (['.', 'z', 'i', 'p'] : List Char).isPrefixOf (a :: b :: c :: d :: l') := by
  simp [List.isPrefixOf]

theorem zipPfx1 (a : Char) :
    (['.', 'z', 'i', 'p'] : List Char).isPrefixOf (a :: '.' :: 'z' :: 'i' :: 'p' :: []) = false := by
  have h : (('z' : Char) == '.') = false := by decide
  simp [List.isPrefixOf, h]

theorem zipPfx2 (a b : Char) :
    (['.', 'z', 'i', 'p'] : List Char).isPrefixOf (a :: b :: '.' :: 'z' :: 'i' :: 'p' :: []) = false := by
  have h : (('i' : Char) == '.') = false := by decide
  simp [List.isPrefixOf, h]

theorem zipPfx3 (a b c : Char) :
    (['.', 'z', 'i', 'p'] : List Char).isPrefixOf (a :: b :: c :: '.' :: 'z' :: 'i' :: 'p' :: []) = false := by
  have h : (('p' : Char) == '.') = false := by decide
  simp [List.isPrefixOf, h]

/-- When `.zip` does not occur in `l`, stripping the first occurrence of
`.zip` from `l ++ ".zip"` removes exactly the appended suffix. -/
theorem stripFirst_zip_append {l : List Char}
    (h : occursIn ['.', 'z', 'i', 'p'] l = false) :
    stripFirst ['.', 'z', 'i', 'p'] (l ++ ['.', 'z', 'i', 'p']) = some l := by
  induction l with
  | nil => decide
  | cons c cs ih =>
    rw [occursIn, Bool.or_eq_false_iff] at h
    obtain ⟨h1, h2⟩ := h
    have hcond : (['.', 'z', 'i', 'p'] : List Char).isPrefixOf
        (c :: (cs ++ ['.', 'z', 'i', 'p'])) = false := by
      match cs with
      | [] => exact zipPfx1 c
      | [a] => exact zipPfx2 c a
      | [a, b] => exact zipPfx3 c a b
      | a :: b :: e :: cs' =>
        have := zipPfx4 c a b e (cs' ++ ['.', 'z', 'i', 'p']) cs'
        simp only [List.cons_append] at this ⊢
        rw [this]
        simpa using h1
    rw [List.cons_append, stripFirst, if_neg (by simp [hcond]), ih h2]
    rfl

/-! ## Claim C4: extracted name derivation -/

/-- C4, counterexample.  The claim says that for EVERY name of the form
`s ++ ".zip"` unpacking returns `s`.  The source uses
`zipFile.replace('.zip', '')`, which removes the FIRST occurrence of
`.zip`, so for the archive name `"a.zipb" ++ ".zip"` the derived name is
`"ab.zip"`, not `"a.zipb"`. -/
theorem C4_counterexample :
    unzipName ("a.zipb" ++ ".zip") = "ab.zip" ∧ unzipName ("a.zipb" ++ ".zip") ≠ "a.zipb" := by
  constructor
  · decide
  · decide

/-- C4, amended: the unpack operation derives the extracted path by removing
the FIRST occurrence of the literal `.zip` from the archive name; whenever
the base name `s` itself contains no `.zip`, this coincides with stripping
the trailing suffix: `unzipName (s ++ ".zip") = s`. -/
theorem C4_unzip_strips_first_zip (s : String)
    (h : strContains s ".zip" = false) :
    unzipName (s ++ ".zip") = s := by
  have hocc : occursIn ['.', 'z', 'i', 'p'] s.data = false := h
  unfold unzipName jsReplace
  have hdata : (s ++ ".zip").data = s.data ++ ['.', 'z', 'i', 'p'] := by
    rw [String.data_append]
  rw [show (".zip" : String).data = ['.', 'z', 'i', 'p'] from rfl, hdata,
    stripFirst_zip_append hocc]

theorem C4_witness :
    strContains "backup-shop-2024.sql" ".zip" = false ∧
      unzipName ("backup-shop-2024.sql" ++ ".zip") = "backup-shop-2024.sql" :=
  ⟨by decide, C4_unzip_strips_first_zip "backup-shop-2024.sql" (by decide)⟩

/-! ## Word-splitting lemmas for the command strings -/

theorem words_nil : words [] = [] := by rw [words]

theorem words_space_cons (t : List Char) : words (' ' :: t) = words t := by
  rw [words]; simp

theorem words_cons_of_ne {c : Char} (hc : c ≠ ' ') (t : List Char) :
    words (c :: t) =
      (c :: t.takeWhile (fun x => x ≠ ' ')) :: words (t.dropWhile (fun x => x ≠ ' ')) := by
  rw [words]; simp [hc]

theorem words_token_space {tok : List Char} (t : List Char)
    (h1 : tok.all (fun c => c ≠ ' ') = true) (h2 : tok ≠ []) :
    words (tok ++ ' ' :: t) = tok :: words t := by
  cases tok with
  | nil => simp at h2
  | cons c tok' =>
    simp only [List.all_cons, Bool.and_eq_true, decide_eq_true_eq] at h1
    have hall : ∀ a ∈ tok', (fun x => decide (x ≠ ' ')) a = true := by
      intro a ha
      simpa using (List.all_eq_true.mp h1.2) a ha
    rw [List.cons_append, words_cons_of_ne h1.1]
    rw [List.takeWhile_append_of_pos hall, List.dropWhile_append_of_pos hall]
    rw [List.takeWhile_cons_of_neg (by simp), List.dropWhile_cons_of_neg (by simp)]
    rw [List.append_nil, words_space_cons]

theorem words_token {tok : List Char}
    (h1 : tok.all (fun c => c ≠ ' ') = true) (h2 : tok ≠ []) :
    words tok = [tok] := by
  cases tok with
  | nil => simp at h2
  | cons c tok' =>
    simp only [List.all_cons, Bool.and_eq_true, decide_eq_true_eq] at h1
    have hall : ∀ a ∈ tok', (fun x => decide (x ≠ ' ')) a = true := by
      intro a ha
      simpa using (List.all_eq_true.mp h1.2) a ha
    rw [words_cons_of_ne h1.1, List.takeWhile_eq_self_iff.mpr hall,
      List.dropWhile_eq_nil_iff.mpr hall, words_nil]

/-- Word splitting of an eight-token command line whose fifth and sixth
tokens are separated by a double space (the shape of the credential-free
dump/import commands). -/
theorem words_eight (t1 t2 t3 t4 t5 t6 t7 t8 : List Char)
    (h1 : t1.all (fun c => c ≠ ' ') = true) (n1 : t1 ≠ [])
    (h2 : t2.all (fun c => c ≠ ' ') = true) (n2 : t2 ≠ [])
    (h3 : t3.all (fun c => c ≠ ' ') = true) (n3 : t3 ≠ [])
    (h4 : t4.all (fun c => c ≠ ' ') = true) (n4 : t4 ≠ [])
    (h5 : t5.all (fun c => c ≠ ' ') = true) (n5 : t5 ≠ [])
    (h6 : t6.all (fun c => c ≠ ' ') = true) (n6 : t6 ≠ [])
    (h7 : t7.all (fun c => c ≠ ' ') = true) (n7 : t7 ≠ [])
    (h8 : t8.all (fun c => c ≠ ' ') = true) (n8 : t8 ≠ []) :
    words (t1 ++ ' ' :: (t2 ++ ' ' :: (t3 ++ ' ' :: (t4 ++ ' ' :: (t5 ++ ' ' :: ' ' ::
        (t6 ++ ' ' :: (t7 ++ ' ' :: t8)))))))
      = [t1, t2, t3, t4, t5, t6, t7, t8] := by
  rw [words_token_space _ h1 n1]
  rw [words_token_space _ h2 n2]
  rw [words_token_space _ h3 n3]
  rw [words_token_space _ h4 n4]
  rw [words_token_space _ h5 n5]
  rw [words_space_cons]
  rw [words_token_space _ h6 n6]
  rw [words_token_space _ h7 n7]
  rw [words_token h8 n8]

theorem data_ne_nil_of_ne_empty {s : String} (h : s ≠ "") : s.data ≠ [] := by
  intro hd
  exact h (String.ext (by rw [hd]))

theorem spaceFree_all {s : String} (h : spaceFree s = true) :
    s.data.all (fun c => c ≠ ' ') = true := h

/-! ## Claim C5: empty password omits the credential flag -/

/-- C5: with a present-but-empty password the credential flag is omitted
entirely from both the dump and the import command — the shell-visible
argument words are exactly tool, `-h`, host, `-u`, user, database and the
redirection, with no `-p` argument; and an unset password is
distinguishable from an empty one: unset is rejected at startup while empty
passes validation. -/
theorem C5_empty_password_flag_omitted (host user db file : String) (e : Env)
    (hh1 : spaceFree host = true) (hh2 : host ≠ "")
    (hu1 : spaceFree user = true) (hu2 : user ≠ "")
    (hd1 : spaceFree db = true) (hd2 : db ≠ "")
    (hf1 : spaceFree file = true) (hf2 : file ≠ "")
    (he : truthy e.DB_HOST = true ∧ truthy e.DB_USER = true ∧ truthy e.DB_NAME = true ∧
      truthy e.GDRIVE_CLIENT_EMAIL = true ∧ truthy e.GDRIVE_PRIVATE_KEY = true ∧
      truthy e.GDRIVE_FOLDER_ID = true) :
    passwordArg "" = "" ∧
    shellWords (dumpCmd host user "" db file)
      = ["mysqldump", "-h", host, "-u", user, db, ">", file] ∧
    shellWords (importCmd host user "" db file)
      = ["mysql", "-h", host, "-u", user, db, "<", file] ∧
    (e.DB_PASSWORD = none →
      validateEnv e = .error "Missing required environment variable: DB_PASSWORD. If you have no password, set it to DB_PASSWORD= in your .env file.") ∧
    validateEnv { e with DB_PASSWORD := some "" } = .ok () := by
  obtain ⟨e1, e2, e3, e4, e5, e6⟩ := he
  refine ⟨rfl, ?_, ?_, ?_, ?_⟩
  · have hb : (dumpCmd host user "" db file).data
        = "mysqldump".data ++ ' ' :: ("-h".data ++ ' ' :: (host.data ++ ' ' :: ("-u".data ++ ' ' ::
            (user.data ++ ' ' :: ' ' :: (db.data ++ ' ' :: (">".data ++ ' ' :: file.data)))))) := by
      simp [dumpCmd, show passwordArg "" = "" from rfl, List.append_assoc]
    rw [shellWords, hb,
      words_eight _ _ _ _ _ _ _ _ (by decide) (by decide) (by decide) (by decide)
        (spaceFree_all hh1) (data_ne_nil_of_ne_empty hh2) (by decide) (by decide)
        (spaceFree_all hu1) (data_ne_nil_of_ne_empty hu2)
        (spaceFree_all hd1) (data_ne_nil_of_ne_empty hd2) (by decide) (by decide)
        (spaceFree_all hf1) (data_ne_nil_of_ne_empty hf2)]
    rfl
  · have hb : (importCmd host user "" db file).data
        = "mysql".data ++ ' ' :: ("-h".data ++ ' ' :: (host.data ++ ' ' :: ("-u".data ++ ' ' ::
            (user.data ++ ' ' :: ' ' :: (db.data ++ ' ' :: ("<".data ++ ' ' :: file.data)))))) := by
      simp [importCmd, show passwordArg "" = "" from rfl, List.append_assoc]
    rw [shellWords, hb,
      words_eight _ _ _ _ _ _ _ _ (by decide) (by decide) (by decide) (by decide)
        (spaceFree_all hh1) (data_ne_nil_of_ne_empty hh2) (by decide) (by decide)
        (spaceFree_all hu1) (data_ne_nil_of_ne_empty hu2)
        (spaceFree_all hd1) (data_ne_nil_of_ne_empty hd2) (by decide) (by decide)
        (spaceFree_all hf1) (data_ne_nil_of_ne_empty hf2)]
    rfl
  · intro hpw
    simp [validateEnv, e1, e2, e3, e4, e5, e6, hpw]
  · simp [validateEnv, e1, e2, e3, e4, e5, e6]

theorem C5_witness :
    (spaceFree "localhost" = true ∧ "localhost" ≠ "" ∧ spaceFree "root" = true ∧ "root" ≠ "" ∧
      spaceFree "shop" = true ∧ "shop" ≠ "" ∧ spaceFree "f.sql" = true ∧ "f.sql" ≠ "") ∧
    (passwordArg "" = "" ∧
      shellWords (dumpCmd "localhost" "root" "" "shop" "f.sql")
        = ["mysqldump", "-h", "localhost", "-u", "root", "shop", ">", "f.sql"] ∧
      shellWords (importCmd "localhost" "root" "" "shop" "f.sql")
        = ["mysql", "-h", "localhost", "-u", "root", "shop", "<", "f.sql"] ∧
      ((⟨some "h", some "u", some "n", some "e", some "k", some "f", none⟩ : Env).DB_PASSWORD = none →
        validateEnv ⟨some "h", some "u", some "n", some "e", some "k", some "f", none⟩
          = .error "Missing required environment variable: DB_PASSWORD. If you have no password, set it to DB_PASSWORD= in your .env file.") ∧
      validateEnv { (⟨some "h", some "u", some "n", some "e", some "k", some "f", none⟩ : Env) with
          DB_PASSWORD := some "" } = .ok ()) :=
  ⟨by decide,
   C5_empty_password_flag_omitted "localhost" "root" "shop" "f.sql"
     ⟨some "h", some "u", some "n", some "e", some "k", some "f", none⟩
     (by decide) (by decide) (by decide) (by decide) (by decide) (by decide)
     (by decide) (by decide)
     ⟨by decide, by decide, by decide, by decide, by decide, by decide⟩⟩

/-! ## Claims C1 and C6: the backup pipeline -/

theorem append_zip_ne (s : String) : s ++ ".zip" ≠ s := by
  intro h
  have hlen := congrArg String.length h
  rw [String.length_append, show (".zip" : String).length = 4 from rfl] at hlen
  omega

/-- C1: on every backup run — whichever stage fails (dump, pack, upload) or
none — `cleanup` is invoked exactly once, with the dump and archive paths,
and the unlinks it attempts (guarded by the existence check) are exactly
the local artifact paths actually created during the run: a path whose
artifact was never created is never unlinked. -/
theorem C1_backup_cleanup_once_exactly_created (o : BackupOracle) (db ts : String) :
    (runBackupProcess o db ts Trace.init).cleanupCalls
      = [[dumpFileName db ts, dumpFileName db ts ++ ".zip"]] ∧
    (runBackupProcess o db ts Trace.init).deleted
      = (runBackupProcess o db ts Trace.init).created := by
  have hne : dumpFileName db ts ++ ".zip" ≠ dumpFileName db ts := append_zip_ne _
  have hne2 : dumpFileName db ts ≠ dumpFileName db ts ++ ".zip" := fun h => hne h.symm
  unfold runBackupProcess
  generalize hz : dumpFileName db ts ++ ".zip" = z at *
  generalize hd : dumpFileName db ts = d at *
  obtain ⟨de, dp, pk, pb, pe, uo, ue, uf⟩ := o
  cases de <;> cases dp <;> cases pk <;> cases uo <;>
    simp [dumpDatabase, zipFileFunc, uploadToGoogleDrive, cleanup,
      cleanupStep, Trace.createFile, Trace.unlink, Trace.logMsg, Trace.hasFile, Trace.init,
      hne, hne2, hz]

/-- C6: when the dump tool fails with diagnostic output on stderr, the run
logs a dump error containing that text, reports the pipeline failure, ends
with exit code 1, never creates the archive file, and never attempts an
upload. -/
theorem C6_dump_failure_short_circuits (o : BackupOracle) (db ts em se : String)
    (h : o.dumpExec = .fail em se) :
    ("❌ Database dump failed: " ++ se) ∈ (runBackupProcess o db ts Trace.init).log ∧
    strContains ("❌ Database dump failed: " ++ se) se = true ∧
    ("\n🔥 Backup failed: " ++ ("Database dump failed: " ++ em))
      ∈ (runBackupProcess o db ts Trace.init).log ∧
    (runBackupProcess o db ts Trace.init).exitCode = 1 ∧
    (dumpFileName db ts ++ ".zip") ∉ (runBackupProcess o db ts Trace.init).created ∧
    (runBackupProcess o db ts Trace.init).uploadAttempts = 0 := by
  have hcontain : strContains ("❌ Database dump failed: " ++ se) se = true := by
    rw [strContains, String.data_append]
    exact occursIn_append_self _ (by decide)
  have hne : dumpFileName db ts ++ ".zip" ≠ dumpFileName db ts := append_zip_ne _
  have hne2 : dumpFileName db ts ≠ dumpFileName db ts ++ ".zip" := fun h => hne h.symm
  unfold runBackupProcess
  generalize hz : dumpFileName db ts ++ ".zip" = z at *
  generalize hd : dumpFileName db ts = d at *
  obtain ⟨de, dp, pk, pb, pe, uo, ue, uf⟩ := o
  subst h
  cases dp <;>
    simp [dumpDatabase, zipFileFunc, uploadToGoogleDrive, cleanup,
      cleanupStep, Trace.createFile, Trace.unlink, Trace.logMsg, Trace.hasFile, Trace.init,
      hne, hne2, hz, hcontain]

theorem C6_witness :
    (⟨ExecOutcome.fail "Command failed: mysqldump\nAccess denied" "Access denied", true, true,
        0, "", true, "", ""⟩ : BackupOracle).dumpExec
      = .fail "Command failed: mysqldump\nAccess denied" "Access denied" ∧
    (("❌ Database dump failed: " ++ "Access denied")
        ∈ (runBackupProcess
            ⟨.fail "Command failed: mysqldump\nAccess denied" "Access denied", true, true,
              0, "", true, "", ""⟩ "shop" "TS" Trace.init).log ∧
      strContains ("❌ Database dump failed: " ++ "Access denied") "Access denied" = true ∧
      ("\n🔥 Backup failed: " ++ ("Database dump failed: " ++ "Command failed: mysqldump\nAccess denied"))
        ∈ (runBackupProcess
            ⟨.fail "Command failed: mysqldump\nAccess denied" "Access denied", true, true,
              0, "", true, "", ""⟩ "shop" "TS" Trace.init).log ∧
      (runBackupProcess
          ⟨.fail "Command failed: mysqldump\nAccess denied" "Access denied", true, true,
            0, "", true, "", ""⟩ "shop" "TS" Trace.init).exitCode = 1 ∧
      (dumpFileName "shop" "TS" ++ ".zip") ∉ (runBackupProcess
          ⟨.fail "Command failed: mysqldump\nAccess denied" "Access denied", true, true,
            0, "", true, "", ""⟩ "shop" "TS" Trace.init).created ∧
      (runBackupProcess
          ⟨.fail "Command failed: mysqldump\nAccess denied" "Access denied", true, true,
            0, "", true, "", ""⟩ "shop" "TS" Trace.init).uploadAttempts = 0) :=
  ⟨rfl, C6_dump_failure_short_circuits _ "shop" "TS" _ _ rfl⟩

/-! ## Helper lemmas for the restore pipeline -/

theorem getD_mem_of_ne_nil {l : List RemoteFile} (i : Nat) (h : l ≠ []) :
    l.getD (i % l.length) default ∈ l := by
  have hlen : 0 < l.length := List.length_pos.mpr h
  have hidx : i % l.length < l.length := Nat.mod_lt _ hlen
  rw [List.getD_eq_getElem?_getD, List.getElem?_eq_getElem hidx, Option.getD_some]
  exact List.getElem_mem hidx

/-- A listed name that contains `backup-` (the Drive query filter) and ends
in `.zip` is non-empty, and the name the restore derives for the extracted
dump is non-empty and differs from the archive name. -/
theorem unzipName_facts {name : String}
    (hb : strContains name "backup-" = true) (hz : ∃ s, name = s ++ ".zip") :
    name ≠ "" ∧ unzipName name ≠ "" ∧ unzipName name ≠ name := by
  have hlen7 : 7 ≤ name.data.length := by
    have := occursIn_length (show occursIn ("backup-" : String).data name.data = true from hb)
    simpa using this
  have hocc : occursIn ['.', 'z', 'i', 'p'] name.data = true := by
    obtain ⟨s, rfl⟩ := hz
    rw [String.data_append, show (".zip" : String).data = ['.', 'z', 'i', 'p'] from rfl]
    cases hs : s.data with
    | nil => decide
    | cons c cs => exact occursIn_append_self _ (by simp)
  obtain ⟨r, hr⟩ := stripFirst_of_occursIn hocc
  have hrlen : r.length + 4 = name.data.length := by
    have := stripFirst_length hr
    simpa using this
  have hun : unzipName name = ⟨r⟩ := by
    rw [unzipName, jsReplace, show (".zip" : String).data = ['.', 'z', 'i', 'p'] from rfl, hr]
  refine ⟨?_, ?_, ?_⟩
  · intro h
    rw [h] at hlen7
    simp at hlen7
  · intro h
    rw [hun] at h
    have hr0 : r = [] := congrArg String.data h
    rw [hr0, List.length_nil] at hrlen
    omega
  · intro h
    rw [hun] at h
    have hd : r = name.data := congrArg String.data h
    rw [hd] at hrlen
    omega

theorem ne_empty_of_contains_backup {name : String}
    (hb : strContains name "backup-" = true) : name ≠ "" := by
  intro h
  subst h
  simp [strContains, occursIn] at hb

/-! ## Claim C2: restore failures clean up exactly what was created -/

/-- C2: when a restore run fails at download, unzip or import, the run ends
in failure (exit code 1) after invoking `cleanup` exactly once, on exactly
the artifact paths created before the failure, and the unlinks attempted
are exactly those created paths. -/
theorem C2_restore_failure_cleanup (o : RestoreOracle) (files : List RemoteFile)
    (hl : o.listResult = .ok files) (hne : files ≠ [])
    (hnames : ∀ fl ∈ files, strContains fl.name "backup-" = true ∧ ∃ s, fl.name = s ++ ".zip")
    (hc : o.confirm = true)
    (hfail : ¬(o.downloadOk = true ∧ o.unzipOk = true ∧ o.importExec = .ok)) :
    (runRestoreProcess o Trace.init).exitCode = 1 ∧
    (runRestoreProcess o Trace.init).cleanupCalls = [(runRestoreProcess o Trace.init).created] ∧
    (runRestoreProcess o Trace.init).deleted = (runRestoreProcess o Trace.init).created := by
  obtain ⟨hb, hzs⟩ := hnames _ (getD_mem_of_ne_nil o.selectIndex hne)
  obtain ⟨hn1, hn2, hn3⟩ := unzipName_facts hb hzs
  have hn3s : (files.getD (o.selectIndex % files.length) default).name
      ≠ unzipName (files.getD (o.selectIndex % files.length) default).name := fun h => hn3 h.symm
  have hlen0 : files.length ≠ 0 := fun h => hne (List.length_eq_zero.mp h)
  unfold runRestoreProcess listBackupsFromDrive
  obtain ⟨lr, si, cf, dok, derr, uok, uerr, ie⟩ := o
  simp only at hl hc hfail hn1 hn2 hn3 hn3s ⊢
  subst hl
  subst hc
  simp only [List.getD_eq_getElem?_getD] at hn1 hn2 hn3 hn3s
  have hbe1 : (files[si % files.length]?.getD default).name.isEmpty = false :=
    Bool.eq_false_iff.mpr (fun hx => hn1 ((String.isEmpty_iff _).mp hx))
  have hbe2 : (unzipName (files[si % files.length]?.getD default).name).isEmpty = false :=
    Bool.eq_false_iff.mpr (fun hx => hn2 ((String.isEmpty_iff _).mp hx))
  cases dok
  · simp [downloadFileFromDrive, unzipRestoreFile, importDatabase, jsFilter, cleanup, cleanupStep,
      Trace.createFile, Trace.unlink, Trace.logMsg, Trace.hasFile, Trace.init,
      hlen0, hn1, hn2, hn3, hn3s, List.filter_cons, List.filter_nil, hbe1, hbe2,
      show ("" : String).isEmpty = true from rfl]
  · cases uok
    · simp [downloadFileFromDrive, unzipRestoreFile, importDatabase, jsFilter, cleanup, cleanupStep,
        Trace.createFile, Trace.unlink, Trace.logMsg, Trace.hasFile, Trace.init,
        hlen0, hn1, hn2, hn3, hn3s, List.filter_cons, List.filter_nil, hbe1, hbe2,
        show ("" : String).isEmpty = true from rfl]
    · cases ie with
      | ok => exact absurd ⟨rfl, rfl, rfl⟩ hfail
      | fail em se =>
        simp [downloadFileFromDrive, unzipRestoreFile, importDatabase, jsFilter, cleanup, cleanupStep,
          Trace.createFile, Trace.unlink, Trace.logMsg, Trace.hasFile, Trace.init,
          hlen0, hn1, hn2, hn3, hn3s, List.filter_cons, List.filter_nil, hbe1, hbe2,
          show ("" : String).isEmpty = true from rfl]

theorem C2_witness :
    ((⟨.ok [⟨"id1", "backup-shop.sql.zip", "t1"⟩], 0, true, false, "network error", true, "",
        .ok⟩ : RestoreOracle).listResult = .ok [⟨"id1", "backup-shop.sql.zip", "t1"⟩] ∧
      ([⟨"id1", "backup-shop.sql.zip", "t1"⟩] : List RemoteFile) ≠ [] ∧
      (⟨.ok [⟨"id1", "backup-shop.sql.zip", "t1"⟩], 0, true, false, "network error", true, "",
        .ok⟩ : RestoreOracle).confirm = true ∧
      ¬((⟨.ok [⟨"id1", "backup-shop.sql.zip", "t1"⟩], 0, true, false, "network error", true, "",
          .ok⟩ : RestoreOracle).downloadOk = true ∧
        (⟨.ok [⟨"id1", "backup-shop.sql.zip", "t1"⟩], 0, true, false, "network error", true, "",
          .ok⟩ : RestoreOracle).unzipOk = true ∧
        (⟨.ok [⟨"id1", "backup-shop.sql.zip", "t1"⟩], 0, true, false, "network error", true, "",
          .ok⟩ : RestoreOracle).importExec = .ok)) ∧
    ((runRestoreProcess
        ⟨.ok [⟨"id1", "backup-shop.sql.zip", "t1"⟩], 0, true, false, "network error", true, "",
          .ok⟩ Trace.init).exitCode = 1 ∧
      (runRestoreProcess
        ⟨.ok [⟨"id1", "backup-shop.sql.zip", "t1"⟩], 0, true, false, "network error", true, "",
          .ok⟩ Trace.init).cleanupCalls
        = [(runRestoreProcess
            ⟨.ok [⟨"id1", "backup-shop.sql.zip", "t1"⟩], 0, true, false, "network error", true, "",
              .ok⟩ Trace.init).created] ∧
      (runRestoreProcess
        ⟨.ok [⟨"id1", "backup-shop.sql.zip", "t1"⟩], 0, true, false, "network error", true, "",
          .ok⟩ Trace.init).deleted
        = (runRestoreProcess
            ⟨.ok [⟨"id1", "backup-shop.sql.zip", "t1"⟩], 0, true, false, "network error", true, "",
              .ok⟩ Trace.init).created) :=
  ⟨⟨rfl, by decide, rfl, by decide⟩,
   C2_restore_failure_cleanup _ [⟨"id1", "backup-shop.sql.zip", "t1"⟩] rfl (by decide)
     (by
       intro fl hfl
       rw [List.mem_singleton] at hfl
       subst hfl
       exact ⟨by decide, ⟨"backup-shop.sql", rfl⟩⟩)
     rfl (by decide)⟩

/-! ## Claim C3: declining the confirmation -/

/-- C3: when the user declines the confirmation prompt (whose default
answer is `false` in the source), no download, unzip or import is
performed, nothing is created and nothing is deleted, the run logs the
cancellation message and ends with exit code 0 — a cancellation, not a
failure. -/
theorem C3_decline_cancels_without_side_effects (o : RestoreOracle) (files : List RemoteFile)
    (hl : o.listResult = .ok files) (hne : files ≠ []) (hc : o.confirm = false) :
    (runRestoreProcess o Trace.init).downloadAttempts = 0 ∧
    (runRestoreProcess o Trace.init).unzipAttempts = 0 ∧
    (runRestoreProcess o Trace.init).importAttempts = 0 ∧
    (runRestoreProcess o Trace.init).created = [] ∧
    (runRestoreProcess o Trace.init).deleted = [] ∧
    (runRestoreProcess o Trace.init).exitCode = 0 ∧
    "🛑 Restore cancelled." ∈ (runRestoreProcess o Trace.init).log := by
  have hlen0 : files.length ≠ 0 := fun h => hne (List.length_eq_zero.mp h)
  unfold runRestoreProcess listBackupsFromDrive
  obtain ⟨lr, si, cf, dok, derr, uok, uerr, ie⟩ := o
  simp only at hl hc ⊢
  subst hl
  subst hc
  simp [jsFilter, cleanup, cleanupStep, Trace.logMsg, Trace.init, hlen0,
    List.filter_cons, List.filter_nil, show ("" : String).isEmpty = true from rfl]

theorem C3_witness :
    ((⟨.ok [⟨"id1", "backup-shop.sql.zip", "t1"⟩], 0, false, true, "", true, "",
        .ok⟩ : RestoreOracle).listResult = .ok [⟨"id1", "backup-shop.sql.zip", "t1"⟩] ∧
      ([⟨"id1", "backup-shop.sql.zip", "t1"⟩] : List RemoteFile) ≠ [] ∧
      (⟨.ok [⟨"id1", "backup-shop.sql.zip", "t1"⟩], 0, false, true, "", true, "",
        .ok⟩ : RestoreOracle).confirm = false) ∧
    ((runRestoreProcess
        ⟨.ok [⟨"id1", "backup-shop.sql.zip", "t1"⟩], 0, false, true, "", true, "",
          .ok⟩ Trace.init).downloadAttempts = 0 ∧
      (runRestoreProcess
        ⟨.ok [⟨"id1", "backup-shop.sql.zip", "t1"⟩], 0, false, true, "", true, "",
          .ok⟩ Trace.init).unzipAttempts = 0 ∧
      (runRestoreProcess
        ⟨.ok [⟨"id1", "backup-shop.sql.zip", "t1"⟩], 0, false, true, "", true, "",
          .ok⟩ Trace.init).importAttempts = 0 ∧
      (runRestoreProcess
        ⟨.ok [⟨"id1", "backup-shop.sql.zip", "t1"⟩], 0, false, true, "", true, "",
          .ok⟩ Trace.init).created = [] ∧
      (runRestoreProcess
        ⟨.ok [⟨"id1", "backup-shop.sql.zip", "t1"⟩], 0, false, true, "", true, "",
          .ok⟩ Trace.init).deleted = [] ∧
      (runRestoreProcess
        ⟨.ok [⟨"id1", "backup-shop.sql.zip", "t1"⟩], 0, false, true, "", true, "",
          .ok⟩ Trace.init).exitCode = 0 ∧
      "🛑 Restore cancelled." ∈ (runRestoreProcess
        ⟨.ok [⟨"id1", "backup-shop.sql.zip", "t1"⟩], 0, false, true, "", true, "",
          .ok⟩ Trace.init).log) :=
  ⟨⟨rfl, by decide, rfl⟩,
   C3_decline_cancels_without_side_effects _ [⟨"id1", "backup-shop.sql.zip", "t1"⟩]
     rfl (by decide) rfl⟩

/-! ## Claim C7: empty listing -/

/-- C7: when the Drive listing returns zero records, the restore run ends
immediately in the distinguished "nothing to restore" state: the
informational message is logged, no selection or confirmation prompt is
shown, no file is created or deleted, no download, unzip or import is
attempted, and the exit code stays 0. -/
theorem C7_empty_listing_terminates_immediately (o : RestoreOracle)
    (hl : o.listResult = .ok []) :
    (runRestoreProcess o Trace.init).selectPrompts = 0 ∧
    (runRestoreProcess o Trace.init).confirmPrompts = 0 ∧
    (runRestoreProcess o Trace.init).created = [] ∧
    (runRestoreProcess o Trace.init).deleted = [] ∧
    (runRestoreProcess o Trace.init).downloadAttempts = 0 ∧
    (runRestoreProcess o Trace.init).unzipAttempts = 0 ∧
    (runRestoreProcess o Trace.init).importAttempts = 0 ∧
    "🤷 No backup files found in the specified Google Drive folder."
      ∈ (runRestoreProcess o Trace.init).log ∧
    (runRestoreProcess o Trace.init).exitCode = 0 := by
  unfold runRestoreProcess listBackupsFromDrive
  obtain ⟨lr, si, cf, dok, derr, uok, uerr, ie⟩ := o
  simp only at hl ⊢
  subst hl
  simp [jsFilter, cleanup, cleanupStep, Trace.logMsg, Trace.init,
    List.filter_cons, List.filter_nil, show ("" : String).isEmpty = true from rfl]

theorem C7_witness :
    (⟨.ok [], 0, true, true, "", true, "", .ok⟩ : RestoreOracle).listResult = .ok [] ∧
    ((runRestoreProcess (⟨.ok [], 0, true, true, "", true, "", .ok⟩ : RestoreOracle)
        Trace.init).selectPrompts = 0 ∧
      (runRestoreProcess (⟨.ok [], 0, true, true, "", true, "", .ok⟩ : RestoreOracle)
        Trace.init).confirmPrompts = 0 ∧
      (runRestoreProcess (⟨.ok [], 0, true, true, "", true, "", .ok⟩ : RestoreOracle)
        Trace.init).created = [] ∧
      (runRestoreProcess (⟨.ok [], 0, true, true, "", true, "", .ok⟩ : RestoreOracle)
        Trace.init).deleted = [] ∧
      (runRestoreProcess (⟨.ok [], 0, true, true, "", true, "", .ok⟩ : RestoreOracle)
        Trace.init).downloadAttempts = 0 ∧
      (runRestoreProcess (⟨.ok [], 0, true, true, "", true, "", .ok⟩ : RestoreOracle)
        Trace.init).unzipAttempts = 0 ∧
      (runRestoreProcess (⟨.ok [], 0, true, true, "", true, "", .ok⟩ : RestoreOracle)
        Trace.init).importAttempts = 0 ∧
      "🤷 No backup files found in the specified Google Drive folder."
        ∈ (runRestoreProcess (⟨.ok [], 0, true, true, "", true, "", .ok⟩ : RestoreOracle)
          Trace.init).log ∧
      (runRestoreProcess (⟨.ok [], 0, true, true, "", true, "", .ok⟩ : RestoreOracle)
        Trace.init).exitCode = 0) :=
  ⟨rfl, C7_empty_listing_terminates_immediately _ rfl⟩

/-! ## Claim C10: the download destination exists even on immediate failure -/

theorem mem_fs_of_hasFile {st : Trace} {p : Path} (h : st.hasFile p = true) : p ∈ st.fs := by
  rw [Trace.hasFile, List.any_eq_true] at h
  obtain ⟨q, hq, he⟩ := h
  rw [decide_eq_true_eq] at he
  rwa [he] at hq

/-- C10: `downloadFileFromDrive` opens the destination write stream before
issuing the Drive request, so the destination path is created (and a file
exists there) even when the request fails; and since the pipeline assigns
the tracking variable before the call, a failed download still hands the
path to `cleanup`. -/
theorem C10_download_destination_created_before_request (o : RestoreOracle)
    (files : List RemoteFile)
    (hl : o.listResult = .ok files) (hne : files ≠ [])
    (hnames : ∀ fl ∈ files, strContains fl.name "backup-" = true)
    (hc : o.confirm = true) (hd : o.downloadOk = false) :
    (∀ (st : Trace) (fid nm : String),
      (downloadFileFromDrive o fid nm st).1.created = st.created ++ [nm] ∧
      nm ∈ (downloadFileFromDrive o fid nm st).1.fs ∧
      (downloadFileFromDrive o fid nm st).2 = .error o.downloadErr) ∧
    (files.getD (o.selectIndex % files.length) default).name
      ∈ (runRestoreProcess o Trace.init).created ∧
    (runRestoreProcess o Trace.init).cleanupCalls
      = [[(files.getD (o.selectIndex % files.length) default).name]] := by
  have hb := hnames _ (getD_mem_of_ne_nil o.selectIndex hne)
  have hn1 := ne_empty_of_contains_backup hb
  have hlen0 : files.length ≠ 0 := fun h => hne (List.length_eq_zero.mp h)
  constructor
  · intro st fid nm
    refine ⟨?_, ?_, ?_⟩
    · simp [downloadFileFromDrive, Trace.createFile, Trace.logMsg, hd]
    · simp only [downloadFileFromDrive, Trace.createFile, Trace.logMsg, hd]
      by_cases hx : Trace.hasFile { st with log := st.log ++ ["🔽 Downloading " ++ nm ++ "..."] } nm = true
      · simp only [hx, if_true]
        exact mem_fs_of_hasFile hx
      · rw [Bool.not_eq_true] at hx
        simp [hx]
    · simp [downloadFileFromDrive, Trace.createFile, Trace.logMsg, hd]
  · unfold runRestoreProcess listBackupsFromDrive
    obtain ⟨lr, si, cf, dok, derr, uok, uerr, ie⟩ := o
    simp only at hl hc hd hn1 ⊢
    subst hl
    subst hc
    subst hd
    simp only [List.getD_eq_getElem?_getD] at hn1 ⊢
    have hbe1 : (files[si % files.length]?.getD default).name.isEmpty = false :=
      Bool.eq_false_iff.mpr (fun hx => hn1 ((String.isEmpty_iff _).mp hx))
    simp [downloadFileFromDrive, jsFilter, cleanup, cleanupStep,
      Trace.createFile, Trace.unlink, Trace.logMsg, Trace.hasFile, Trace.init,
      hlen0, List.filter_cons, List.filter_nil, hbe1,
      show ("" : String).isEmpty = true from rfl]

theorem C10_witness :
    ((⟨.ok [⟨"id1", "backup-shop.sql.zip", "t1"⟩], 0, true, false, "boom", true, "",
        .ok⟩ : RestoreOracle).listResult = .ok [⟨"id1", "backup-shop.sql.zip", "t1"⟩] ∧
      ([⟨"id1", "backup-shop.sql.zip", "t1"⟩] : List RemoteFile) ≠ [] ∧
      (⟨.ok [⟨"id1", "backup-shop.sql.zip", "t1"⟩], 0, true, false, "boom", true, "",
        .ok⟩ : RestoreOracle).confirm = true ∧
      (⟨.ok [⟨"id1", "backup-shop.sql.zip", "t1"⟩], 0, true, false, "boom", true, "",
        .ok⟩ : RestoreOracle).downloadOk = false) ∧
    ((∀ (st : Trace) (fid nm : String),
        (downloadFileFromDrive
          (⟨.ok [⟨"id1", "backup-shop.sql.zip", "t1"⟩], 0, true, false, "boom", true, "",
            .ok⟩ : RestoreOracle) fid nm st).1.created = st.created ++ [nm] ∧
        nm ∈ (downloadFileFromDrive
          (⟨.ok [⟨"id1", "backup-shop.sql.zip", "t1"⟩], 0, true, false, "boom", true, "",
            .ok⟩ : RestoreOracle) fid nm st).1.fs ∧
        (downloadFileFromDrive
          (⟨.ok [⟨"id1", "backup-shop.sql.zip", "t1"⟩], 0, true, false, "boom", true, "",
            .ok⟩ : RestoreOracle) fid nm st).2
          = .error (⟨.ok [⟨"id1", "backup-shop.sql.zip", "t1"⟩], 0, true, false, "boom", true, "",
            .ok⟩ : RestoreOracle).downloadErr) ∧
      (([⟨"id1", "backup-shop.sql.zip", "t1"⟩] : List RemoteFile).getD
          ((⟨.ok [⟨"id1", "backup-shop.sql.zip", "t1"⟩], 0, true, false, "boom", true, "",
            .ok⟩ : RestoreOracle).selectIndex % ([⟨"id1", "backup-shop.sql.zip", "t1"⟩] : List RemoteFile).length)
          default).name
        ∈ (runRestoreProcess
          (⟨.ok [⟨"id1", "backup-shop.sql.zip", "t1"⟩], 0, true, false, "boom", true, "",
            .ok⟩ : RestoreOracle) Trace.init).created ∧
      (runRestoreProcess
          (⟨.ok [⟨"id1", "backup-shop.sql.zip", "t1"⟩], 0, true, false, "boom", true, "",
            .ok⟩ : RestoreOracle) Trace.init).cleanupCalls
        = [[(([⟨"id1", "backup-shop.sql.zip", "t1"⟩] : List RemoteFile).getD
            ((⟨.ok [⟨"id1", "backup-shop.sql.zip", "t1"⟩], 0, true, false, "boom", true, "",
              .ok⟩ : RestoreOracle).selectIndex % ([⟨"id1", "backup-shop.sql.zip", "t1"⟩] : List RemoteFile).length)
            default).name]]) :=
  ⟨⟨rfl, by decide, rfl, rfl⟩,
   C10_download_destination_created_before_request _ [⟨"id1", "backup-shop.sql.zip", "t1"⟩]
     rfl (by decide)
     (by
       intro fl hfl
       rw [List.mem_singleton] at hfl
       subst hfl
       decide)
     rfl rfl⟩

/-! ## Claim C8: the pack result value -/

/-- C8, counterexample: the claim says a successful pack RETURNS the total
compressed byte count.  The source's `output.on('close', ...)` handler
calls `resolve()` with no argument, so at a concrete successful pack whose
archive totals 12345 bytes the promise resolves with `none` (undefined),
which is not the byte count `some 12345`. -/
theorem C8_counterexample :
    (zipFileFunc ⟨.ok, true, true, 12345, "", true, "", ""⟩ "f.sql" "f.sql.zip" Trace.init).2
      = Except.ok none ∧
    (Except.ok (none : Option Nat) : Except String (Option Nat)) ≠ Except.ok (some 12345) := by
  exact ⟨rfl, by simp⟩

/-- C8, amended: on success the pack operation resolves with NO value
(`resolve()`, modelled `none`): the total compressed byte count of the
written archive is reported only in the success log line, not returned to
the caller. -/
theorem C8_pack_resolves_void_and_logs_bytes (o : BackupOracle) (df zf : String) (st : Trace)
    (h : o.packOk = true) :
    (zipFileFunc o df zf st).2 = Except.ok none ∧
    ("✅ File compressed: " ++ zf ++ " (" ++ toString o.packBytes ++ " bytes)")
      ∈ (zipFileFunc o df zf st).1.log := by
  simp [zipFileFunc, Trace.createFile, Trace.logMsg, h]

theorem C8_witness :
    (⟨.ok, true, true, 12345, "", true, "", ""⟩ : BackupOracle).packOk = true ∧
    ((zipFileFunc ⟨.ok, true, true, 12345, "", true, "", ""⟩ "f.sql" "f.sql.zip" Trace.init).2
        = Except.ok none ∧
      ("✅ File compressed: " ++ "f.sql.zip" ++ " ("
          ++ toString (⟨.ok, true, true, 12345, "", true, "", ""⟩ : BackupOracle).packBytes
          ++ " bytes)")
        ∈ (zipFileFunc ⟨.ok, true, true, 12345, "", true, "", ""⟩ "f.sql" "f.sql.zip"
            Trace.init).1.log) :=
  ⟨rfl, C8_pack_resolves_void_and_logs_bytes _ "f.sql" "f.sql.zip" Trace.init rfl⟩

/-! ## Claim C9: the menu is not re-entered -/

theorem cleanupStep_stable (st : Trace) (f : Path) :
    (cleanupStep st f).cleanupCalls = st.cleanupCalls ∧
    (cleanupStep st f).menuPrompts = st.menuPrompts ∧
    (cleanupStep st f).exited = st.exited := by
  unfold cleanupStep Trace.unlink Trace.logMsg
  by_cases h : st.hasFile f = true <;> simp [h]

theorem foldl_cleanupStep_cleanupCalls (files : List Path) (st : Trace) :
    (files.foldl cleanupStep st).cleanupCalls = st.cleanupCalls := by
  induction files generalizing st with
  | nil => rfl
  | cons f fs ih => rw [List.foldl_cons, ih, (cleanupStep_stable st f).1]

theorem foldl_cleanupStep_menuPrompts (files : List Path) (st : Trace) :
    (files.foldl cleanupStep st).menuPrompts = st.menuPrompts := by
  induction files generalizing st with
  | nil => rfl
  | cons f fs ih => rw [List.foldl_cons, ih, (cleanupStep_stable st f).2.1]

theorem foldl_cleanupStep_exited (files : List Path) (st : Trace) :
    (files.foldl cleanupStep st).exited = st.exited := by
  induction files generalizing st with
  | nil => rfl
  | cons f fs ih => rw [List.foldl_cons, ih, (cleanupStep_stable st f).2.2]

theorem cleanup_cleanupCalls (files : List Path) (st : Trace) :
    (cleanup files st).cleanupCalls = st.cleanupCalls ++ [files] := by
  unfold cleanup
  rw [foldl_cleanupStep_cleanupCalls]
  simp [Trace.logMsg]

theorem cleanup_menuPrompts (files : List Path) (st : Trace) :
    (cleanup files st).menuPrompts = st.menuPrompts := by
  unfold cleanup
  rw [foldl_cleanupStep_menuPrompts]
  simp [Trace.logMsg]

theorem cleanup_exited (files : List Path) (st : Trace) :
    (cleanup files st).exited = st.exited := by
  unfold cleanup
  rw [foldl_cleanupStep_exited]
  simp [Trace.logMsg]

/-- C9, counterexample: the claim says that after a chosen pipeline runs to
completion, control returns to the menu, which would offer the choices a
second time.  In the source `showMainMenu` is called exactly once (line
302) and its `switch` is not wrapped in any loop, so on a concrete fully
successful backup invocation the menu is offered exactly once — not
again. -/
theorem C9_counterexample :
    (mainRun ⟨"shop", "TS", .backup, ⟨.ok, false, true, 10, "", true, "", "id"⟩,
        ⟨.ok [], 0, true, true, "", true, "", .ok⟩⟩).menuPrompts = 1 ∧
    "\n🎉 Backup completed successfully!"
      ∈ (mainRun ⟨"shop", "TS", .backup, ⟨.ok, false, true, 10, "", true, "", "id"⟩,
          ⟨.ok [], 0, true, true, "", true, "", .ok⟩⟩).log ∧
    ¬2 ≤ (mainRun ⟨"shop", "TS", .backup, ⟨.ok, false, true, 10, "", true, "", "id"⟩,
        ⟨.ok [], 0, true, true, "", true, "", .ok⟩⟩).menuPrompts := by
  refine ⟨by decide, by decide, by decide⟩

/-- C9, amended: per invocation the interactive menu is offered exactly
once; when a pipeline action is chosen it runs to completion (its cleanup
executes exactly once) and the invocation then ends without re-displaying
the menu (and without an explicit `process.exit`). -/
theorem C9_menu_offered_once_per_invocation (o : MenuOracle) (h : o.action ≠ .exitApp) :
    (mainRun o).menuPrompts = 1 ∧
    (mainRun o).cleanupCalls.length = 1 ∧
    (mainRun o).exited = none := by
  obtain ⟨db, ts, act, bo, ro⟩ := o
  simp only at h ⊢
  unfold mainRun showMainMenu
  cases act with
  | exitApp => exact absurd rfl h
  | backup =>
    have hne : dumpFileName db ts ++ ".zip" ≠ dumpFileName db ts := append_zip_ne _
    have hne2 : dumpFileName db ts ≠ dumpFileName db ts ++ ".zip" := fun hx => hne hx.symm
    unfold runBackupProcess
    generalize hz : dumpFileName db ts ++ ".zip" = z at *
    generalize hd : dumpFileName db ts = d at *
    obtain ⟨de, dp, pk, pb, pe, uo, ue, uf⟩ := bo
    cases de <;> cases dp <;> cases pk <;> cases uo <;>
      simp [dumpDatabase, zipFileFunc, uploadToGoogleDrive, Trace.createFile, Trace.unlink,
        Trace.logMsg, Trace.hasFile, Trace.init, hne, hne2, hz,
        cleanup_cleanupCalls, cleanup_menuPrompts, cleanup_exited]
  | restore =>
    obtain ⟨lr, si, cf, dok, derr, uok, uerr, ie⟩ := ro
    cases lr with
    | error msg =>
      simp [runRestoreProcess, listBackupsFromDrive, Trace.logMsg, Trace.init,
        cleanup_cleanupCalls, cleanup_menuPrompts, cleanup_exited]
    | ok files =>
      by_cases hf : files.length = 0
      · simp [runRestoreProcess, listBackupsFromDrive, Trace.logMsg, Trace.init, hf,
          cleanup_cleanupCalls, cleanup_menuPrompts, cleanup_exited]
      · cases cf <;> cases dok <;> cases uok <;> cases ie <;>
          simp [runRestoreProcess, listBackupsFromDrive, downloadFileFromDrive,
            unzipRestoreFile, importDatabase, Trace.createFile, Trace.logMsg, Trace.init, hf,
            cleanup_cleanupCalls, cleanup_menuPrompts, cleanup_exited]

theorem C9_witness :
    (⟨"shop", "TS", .restore, ⟨.ok, false, true, 10, "", true, "", "id"⟩,
        ⟨.ok [⟨"id1", "backup-shop.sql.zip", "t1"⟩], 0, true, true, "", true, "",
          .ok⟩⟩ : MenuOracle).action ≠ .exitApp ∧
    ((mainRun ⟨"shop", "TS", .restore, ⟨.ok, false, true, 10, "", true, "", "id"⟩,
        ⟨.ok [⟨"id1", "backup-shop.sql.zip", "t1"⟩], 0, true, true, "", true, "",
          .ok⟩⟩).menuPrompts = 1 ∧
      (mainRun ⟨"shop", "TS", .restore, ⟨.ok, false, true, 10, "", true, "", "id"⟩,
        ⟨.ok [⟨"id1", "backup-shop.sql.zip", "t1"⟩], 0, true, true, "", true, "",
          .ok⟩⟩).cleanupCalls.length = 1 ∧
      (mainRun ⟨"shop", "TS", .restore, ⟨.ok, false, true, 10, "", true, "", "id"⟩,
        ⟨.ok [⟨"id1", "backup-shop.sql.zip", "t1"⟩], 0, true, true, "", true, "",
          .ok⟩⟩).exited = none) :=
  ⟨by decide, C9_menu_offered_once_per_invocation _ (by decide)⟩

end BackupTool
